import Mathlib

/-!
Verification of the SchoolReportGenerator generation pipeline.

This file gives a shallow embedding of the core of the repository:

* the legacy record extractor, ReportGenV2.py, DataProcessor.process_student_data
  together with the Word-document generation loop of
  ReportCardGenerator.generate_report_cards;
* the portable application's batch PDF converter,
  app/services/pdf_converter.py, PDFConverter.convert_batch_single_call;
* the portable application's orchestrator,
  app/services/report_generator.py, ReportGenerator.generate;
* the column-letter resolver and the filename sanitizer of the portable
  application, whose modules (data_processor.py, template_filler.py) are not in
  the source tree; these are modelled from the specification, as marked.

External effects (the pandas row, the filesystem and the LibreOffice
subprocess) are modelled by explicit oracle parameters: a row is a partial map
from column reference to cell value, the subprocess is a behaviour (how long it
runs, its exit code, or the exception it raises) together with a predicate
telling which output files exist afterwards.  Finite Python floats on cells
are modelled by exact decimals, an integer mantissa over a power-of-ten
denominator; the .2f formatting is modelled as round-half-even at two decimals
on that exact value.  The float literal parser models sign, digits and an
optional fractional part, plus the nan and inf tokens; exponent and underscore
literal forms are not modelled.
-/

/-! ## Python value model -/

/-- A spreadsheet cell as seen by the Python code: `none` is Python `None`,
`nan` is a float NaN (what pandas yields for an empty cell), `str` a string
cell and `num` a finite numeric cell, modelled as the exact decimal
m / 10 ^ e. -/
inductive CellValue
  | none
  | nan
  | str (s : String)
  | num (m : Int) (e : Nat)
deriving DecidableEq

/-- Result of Python `float(...)`: NaN, a signed infinity, or a finite value
modelled as the exact decimal m / 10 ^ e. -/
inductive PyFloat
  | nan
  | inf (neg : Bool)
  | val (m : Int) (e : Nat)
deriving DecidableEq

/-- Characters stripped by Python `str.strip()` (the ASCII whitespace forms). -/
def isPySpace (c : Char) : Bool :=
  c == ' ' || c == '\t' || c == '\n' || c == '\r' || c == '\x0b' || c == '\x0c'

/-- Python `str.upper()` restricted to its ASCII action. -/
def pyUpper (s : String) : String := String.mk (s.data.map Char.toUpper)

/-- Python `str.replace(" ", "")`. -/
def removeSpaces (s : String) : String :=
  String.mk (s.data.filter (fun c => !(c == ' ')))

/-- Python `str.replace("_", " ")` (single-character arguments, hence
character-wise). -/
def replaceUnderscores (s : String) : String :=
  String.mk (s.data.map (fun c => if c = '_' then ' ' else c))

/-- Value of the digit list of a numeric literal. -/
def digitsVal (cs : List Char) : Nat :=
  cs.foldl (fun a c => a * 10 + (c.toNat - 48)) 0

/-- Decimal part of the `float(...)` literal grammar: digits, optionally a dot
with further digits, at least one digit overall.  The result is the exact
decimal as mantissa and power-of-ten exponent. -/
def parseDecimalCore (cs : List Char) : Option (Nat × Nat) :=
  let intPart := cs.takeWhile Char.isDigit
  let rest := cs.dropWhile Char.isDigit
  match rest with
  | [] => if intPart.isEmpty then Option.none else some (digitsVal intPart, 0)
  | '.' :: frac =>
    if frac.all Char.isDigit && !(intPart.isEmpty && frac.isEmpty) then
      some (digitsVal intPart * 10 ^ frac.length + digitsVal frac, frac.length)
    else Option.none
  | _ => Option.none

/-- Python `float(s)` on a string: strip whitespace, optional sign, then a
decimal literal or one of the tokens nan, inf, infinity (case-insensitive). -/
def parsePyFloat (s : String) : Option PyFloat :=
  let cs := ((s.data.dropWhile isPySpace).reverse.dropWhile isPySpace).reverse
  let signed : Bool × List Char :=
    match cs with
    | '+' :: r => (false, r)
    | '-' :: r => (true, r)
    | r => (false, r)
  let neg := signed.1
  let body := signed.2
  let up := body.map Char.toUpper
  if up == "NAN".data then some PyFloat.nan
  else if up == "INF".data || up == "INFINITY".data then some (PyFloat.inf neg)
  else
    match parseDecimalCore body with
    | some me => some (PyFloat.val (if neg then -(me.1 : Int) else (me.1 : Int)) me.2)
    | Option.none => Option.none

/-- Python `float(value)` on a cell: `None` raises TypeError, NaN stays NaN,
strings are parsed, numbers pass through. -/
def pyFloat : CellValue → Option PyFloat
  | CellValue.none => Option.none
  | CellValue.nan => some PyFloat.nan
  | CellValue.str s => parsePyFloat s
  | CellValue.num m e => some (PyFloat.val m e)

/-- Nearest integer to a / d for d positive, ties to even: the rounding used
by Python float formatting. -/
def roundHalfEvenNat (a d : Nat) : Nat :=
  let q := a / d
  let r := a % d
  if 2 * r < d then q
  else if d < 2 * r then q + 1
  else if q % 2 = 0 then q else q + 1

/-- Two-digit rendering of a number below 100. -/
def pad2 (n : Nat) : String := String.mk [Nat.digitChar (n / 10), Nat.digitChar (n % 10)]

/-- Python f-string formatting with the `.2f` spec: the magnitude times 100,
rounded half-to-even, rendered with the last two digits behind the dot; the
sign of the value is kept (round-half-even is symmetric, so rounding the
magnitude agrees with rounding the signed value). -/
def format2f : PyFloat → String
  | PyFloat.nan => "nan"
  | PyFloat.inf b => if b then "-inf" else "inf"
  | PyFloat.val m e =>
    let n := roundHalfEvenNat (m.natAbs * 100) (10 ^ e)
    (if m < 0 then "-" else "") ++ toString (n / 100) ++ "." ++ pad2 (n % 100)

/-! ## Python dict model (insertion-ordered association list) -/

/-- Python dict lookup `d[k]`: first binding of the key. -/
def dictLookup {α : Type} : List (String × α) → String → Option α
  | [], _ => Option.none
  | (k, v) :: rest, key => if k = key then some v else dictLookup rest key

/-- Python dict assignment `d[k] = v`: replace in place if the key exists,
otherwise append at the end. -/
def dictInsert {α : Type} : List (String × α) → String → α → List (String × α)
  | [], key, v => [(key, v)]
  | (k, w) :: rest, key, v =>
    if k = key then (key, v) :: rest else (k, w) :: dictInsert rest key v

/-- The keys of the association list are pairwise distinct. -/
def keysNodup {α : Type} (d : List (String × α)) : Prop := (d.map Prod.fst).Nodup

instance {α : Type} (d : List (String × α)) : Decidable (keysNodup d) := by
  unfold keysNodup
  infer_instance

/-! ## ReportGenV2.py, DataProcessor.process_student_data -/

/-- A pandas row, as used by `row[label]`: a partial map from column label to
cell value; a missing label raises KeyError, modelled as `Option.none`. -/
abbrev Row := String → Option CellValue

/-- The null indicator list of ReportGenV2.py (`nan_values`). -/
def nan_values : List String := ["NAN", "NONE", "NA"]

/-- The folding `str(value).upper().replace(" ", "")` applied before the null
indicator test. -/
def foldForNull (s : String) : String := removeSpaces (pyUpper s)

/-- The null test of ReportGenV2.py line 90: a value is replaced when it is
Python `None` or its folded string form is in `nan_values`.  A float NaN
stringifies to "nan", so it folds to "NAN" and is replaced; a finite number
stringifies to digits (with possibly a sign, dot or exponent) and never
matches an indicator. -/
def isNullEquiv : CellValue → Bool
  | CellValue.none => true
  | CellValue.nan => nan_values.contains (foldForNull "nan")
  | CellValue.str s => nan_values.contains (foldForNull s)
  | CellValue.num _ _ => false

/-- The dict comprehension of ReportGenV2.py lines 89-94: keep the value unless
it is null-equivalent, in which case substitute the placeholder. -/
def normalizeValue (v : CellValue) : CellValue :=
  if isNullEquiv v then CellValue.str "---" else v

/-- The loop body of `process_student_data` for one mapping entry.  The outer
`Option.none` is an exception escaping to the enclosing try (KeyError on the
mapping or the row, TypeError or ValueError in `float(...)` or in the `+ "!"`
concatenation); `some Option.none` means the entry inserts nothing (the
`class` key is skipped by the conditional chain); `some (some v)` is the value
inserted for the key. -/
def transformEntry (cmap : List (String × String)) (row : Row) (key ref : String) :
    Option (Option CellValue) :=
  if key = "percentage" then
    match dictLookup cmap "percentage" with
    | Option.none => Option.none
    | some pref =>
      match row pref with
      | Option.none => Option.none
      | some cell =>
        match pyFloat cell with
        | Option.none => Option.none
        | some f => some (some (CellValue.str (format2f f ++ "%")))
  else if key = "remark" then
    match dictLookup cmap "remark" with
    | Option.none => Option.none
    | some rref =>
      match row rref with
      | Option.none => Option.none
      | some cell =>
        match cell with
        | CellValue.str s => some (some (CellValue.str (s ++ "!")))
        | _ => Option.none
  else if key = "class" then some Option.none
  else
    match row ref with
    | Option.none => Option.none
    | some cell => some (some cell)

/-- The `for key in self.column_map.keys()` loop of `process_student_data`,
building `field_dict`.  Iterates the mapping entries in order, applying the
loop body `transformEntry` to each; `cmap` is the whole mapping (the
percentage and remark branches look their reference up in the whole dict, as
the source does).  In the percentage and remark branches the key assigned is
the literal key of the branch, which is the entry's own key. -/
def buildFields (cmap : List (String × String)) (row : Row) :
    List (String × String) → List (String × CellValue) → Option (List (String × CellValue))
  | [], acc => some acc
  | (key, ref) :: rest, acc =>
    match transformEntry cmap row key ref with
    | Option.none => Option.none
    | some Option.none => buildFields cmap row rest acc
    | some (some v) => buildFields cmap row rest (dictInsert acc key v)

/-- ReportGenV2.py, DataProcessor.process_student_data: build the field dict
from the mapping, synthesize the class field from the class name with
underscores replaced by spaces, then normalize every value.  `Option.none` is
the `return None` taken when any exception occurs. -/
def process_student_data (cmap : List (String × String)) (row : Row) (class_name : String) :
    Option (List (String × CellValue)) :=
  match buildFields cmap row cmap [] with
  | Option.none => Option.none
  | some fd =>
    some ((dictInsert fd "class" (CellValue.str (replaceUnderscores class_name))).map
      (fun kv => (kv.1, normalizeValue kv.2)))

/-- The Word-document generation loop of ReportGenV2.py,
ReportCardGenerator.generate_report_cards lines 139-150: process each row in
order; a failed extraction makes `student_data['name']` raise (TypeError on
None), a record without a name key raises KeyError; a record whose name equals
the placeholder breaks out of the loop; otherwise a document is created for
the record and the loop continues.  The result is the ordered list of records
for which documents were created. -/
def generate_word_documents (cmap : List (String × String)) (class_name : String) :
    List Row → Except String (List (List (String × CellValue)))
  | [] => Except.ok []
  | row :: rest =>
    match process_student_data cmap row class_name with
    | Option.none => Except.error "TypeError"
    | some sd =>
      match dictLookup sd "name" with
      | Option.none => Except.error "KeyError"
      | some v =>
        if v = CellValue.str "---" then Except.ok []
        else
          match generate_word_documents cmap class_name rest with
          | Except.error e => Except.error e
          | Except.ok docs => Except.ok (sd :: docs)

/-! ## Column letter resolution (portable app) -/

/-- An ASCII letter, upper or lower case, stated on the character code. -/
def validLetterChar (c : Char) : Prop :=
  (65 ≤ c.toNat ∧ c.toNat ≤ 90) ∨ (97 ≤ c.toNat ∧ c.toNat ≤ 122)

instance (c : Char) : Decidable (validLetterChar c) := by
  unfold validLetterChar
  infer_instance

/-- Alphabet position of a letter, case-folded to uppercase. -/
def letterValue (c : Char) : Nat :=
  if 97 ≤ c.toNat then c.toNat - 97 else c.toNat - 65

/-- Modelled from the spec: `column_letter_to_index` of the portable
application's data_processor.py is not in the source tree (only its tests
are).  Spec 4.1: for a string of length n the value is the sum over characters
of (letter_value + 1) * 26 ^ (n-1-i), minus 1, letters case-folded to
uppercase.  The fold below computes exactly that sum. -/
def colIndex (cs : List Char) : Nat :=
  cs.foldl (fun a c => a * 26 + (letterValue c + 1)) 0 - 1

/-- Modelled from the spec: string-level column letter resolution. -/
def column_letter_to_index (s : String) : Nat := colIndex s.data

/-- A well-formed column letter reference: non-empty and all letters. -/
def validColLetters (s : String) : Prop :=
  s.data ≠ [] ∧ ∀ c ∈ s.data, validLetterChar c

instance (s : String) : Decidable (validColLetters s) := by
  unfold validColLetters
  infer_instance

/-- Case-insensitive lexicographic comparison of letter lists by alphabet
position. -/
def lexLtV : List Char → List Char → Bool
  | _, [] => false
  | [], _ :: _ => true
  | c :: cs, d :: ds =>
    if letterValue c < letterValue d then true
    else if letterValue c = letterValue d then lexLtV cs ds
    else false

/-- The conventional spreadsheet ordering on column letters: shorter
references first, then case-insensitive alphabetical order. -/
def spreadsheetLt (a b : String) : Bool :=
  if a.length < b.length then true
  else if a.length = b.length then lexLtV a.data b.data
  else false

/-! ## Filename sanitization (portable app) -/

/-- The OS-reserved characters replaced by the sanitizer. -/
def reservedChars : List Char := ['/', '\\', ':', '*', '?', '\"', '<', '>', '|']

/-- Modelled from the spec: `sanitize_filename` of the portable application's
template_filler.py is not in the source tree (only its tests are).  Spec 4.6:
replace each OS-reserved character with an underscore, trim leading and
trailing whitespace, strip trailing dots, and return "unnamed" when the result
is empty. -/
def sanitize_filename (s : String) : String :=
  let repl := s.data.map (fun c => if reservedChars.contains c then '_' else c)
  let trimmed := (repl.dropWhile isPySpace).reverse.dropWhile isPySpace
  let res := (trimmed.dropWhile (fun c => c == '.')).reverse
  if res.isEmpty then "unnamed" else String.mk res

/-! ## pdf_converter.py, PDFConverter.convert_batch_single_call -/

/-- Behaviour of one external LibreOffice invocation: it either runs for
`duration` seconds and exits with `exitCode`, or raising of some other
exception by `subprocess.run`. -/
inductive ExtBehavior
  | completes (duration : Nat) (exitCode : Int)
  | fails (msg : String)
deriving DecidableEq

/-- Observable outcome of `subprocess.run(cmd, timeout=t)`: the completed
process (whose exit code the batch code ignores), `subprocess.TimeoutExpired`,
or another exception. -/
inductive RunOutcome
  | completed (exitCode : Int)
  | timedOut
  | raised (msg : String)
deriving DecidableEq

/-- `subprocess.run` under a timeout: the call times out exactly when the
process needs longer than the timeout argument. -/
def runWithTimeout (timeout : Nat) : ExtBehavior → RunOutcome
  | ExtBehavior.completes d ec => if d ≤ timeout then RunOutcome.completed ec else RunOutcome.timedOut
  | ExtBehavior.fails msg => RunOutcome.raised msg

/-- The result dict of `convert_batch_single_call`. -/
structure BatchResult where
  success_count : Nat
  failure_count : Nat
  errors : List String
deriving DecidableEq

/-- `Path(p).name`: the last path component. -/
def pathName (p : String) : String :=
  String.mk ((p.data.reverse.takeWhile (fun c => !(c == '/'))).reverse)

/-- `Path(p).stem`: the name without its final extension. -/
def pathStem (p : String) : String :=
  let nm := (pathName p).data
  if nm.contains '.' then
    String.mk (((nm.reverse.dropWhile (fun c => !(c == '.'))).drop 1).reverse)
  else String.mk nm

/-- The reconciliation loop body of pdf_converter.py lines 223-229: a present
expected PDF counts as success, an absent one as failure with an error entry
naming the document. -/
def reconcileStep (pdfExists : String → Bool) (r : BatchResult) (p : String) : BatchResult :=
  if pdfExists (pathStem p) then
    { r with success_count := r.success_count + 1 }
  else
    { r with failure_count := r.failure_count + 1,
             errors := r.errors ++ ["Failed to convert: " ++ pathName p] }

/-- pdf_converter.py, PDFConverter.convert_batch_single_call.  The filesystem
after the invocation is the oracle `pdfExists` on stems; the second component
of the result counts the external subprocess invocations performed (the empty
batch returns early without invoking).  The timeout passed to the subprocess
is the per-call timeout scaled by the batch size; on timeout or any other
exception every document is counted failed with a single aggregate error and
no reconciliation runs. -/
def convert_batch_single_call (timeout_seconds : Nat) (docx_files : List String)
    (behavior : ExtBehavior) (pdfExists : String → Bool) : BatchResult × Nat :=
  if docx_files.isEmpty then (⟨0, 0, []⟩, 0)
  else
    match runWithTimeout (timeout_seconds * docx_files.length) behavior with
    | RunOutcome.completed _ =>
      (docx_files.foldl (reconcileStep pdfExists) ⟨0, 0, []⟩, 1)
    | RunOutcome.timedOut =>
      (⟨0, docx_files.length, ["Batch conversion timed out"]⟩, 1)
    | RunOutcome.raised msg =>
      (⟨0, docx_files.length, ["Batch conversion error: " ++ msg]⟩, 1)

/-! ## report_generator.py, ReportGenerator.generate -/

/-- One student row as the orchestrator sees it: the name field of the
extracted record (absent when the record has no name key), and the exception
message of `fill_template` when filling this student's document fails. -/
structure StudentRow where
  name : Option String
  fill_error : Option String
deriving DecidableEq

/-- The result dict of `generate`. -/
structure GenReport where
  success : Bool
  total_students : Nat
  generated : Nat
  failed : Nat
  errors : List String
  output_dir : String
deriving DecidableEq

/-- Instrumentation of the run: whether the scoped temporary directory was
created and whether it was removed by return time, the ordered list of filled
document files, and the number of external conversion invocations. -/
structure GenTrace where
  tempDirCreated : Bool
  tempDirRemoved : Bool
  docxFilled : List String
  conversionCalls : Nat
deriving DecidableEq

/-- Oracles for one run of `generate`: the exception (if any) of each fallible
step, the validation outcome, the converter availability, the loaded student
rows, the behaviour of the batched conversion, the filesystem after it, and
whether the final `shutil.rmtree` succeeds (its exceptions are swallowed). -/
structure GenEnv where
  output_dir : String
  timeout_seconds : Nat
  dpInitError : Option String
  validation_errors : List String
  componentInitError : Option String
  converter_available : Bool
  mkdtempError : Option String
  outputMkdirError : Option String
  rows : List StudentRow
  batch_behavior : ExtBehavior
  pdfExists : String → Bool
  rmtree_ok : Bool

/-- Phase 1 of `generate` (report_generator.py lines 122-144): fill one
document per student into the temporary directory; a filling exception is
caught per student, counted failed and recorded as an error naming the
student.  Returns the docx file list, the failure count and the error list,
all in row order.  `current` is the 1-based row counter used for the default
student name. -/
def fillPhase : List StudentRow → Nat → List String × (Nat × List String)
  | [], _ => ([], (0, []))
  | row :: rest, current =>
    let nm := match row.name with
      | some s => s
      | Option.none => "Student_" ++ toString current
    let prev := fillPhase rest (current + 1)
    match row.fill_error with
    | some e => (prev.1, (prev.2.1 + 1, (nm ++ ": " ++ e) :: prev.2.2))
    | Option.none => ((sanitize_filename nm ++ ".docx") :: prev.1, prev.2)

/-- report_generator.py, ReportGenerator.generate, modelled without a progress
callback (the parameter defaults to None and every use is guarded).  The
guard structure follows the source: DataProcessor construction, validation,
TemplateFiller and PDFConverter construction, the availability check,
`tempfile.mkdtemp`, then `output_path.mkdir` - which the source performs after
creating the temporary directory but before entering the try/finally block
that removes it - then the guarded block: row loading, the filling phase, the
single batched conversion over the filled files, and the final success
assignment; the finally clause attempts `shutil.rmtree` and swallows its
exceptions. -/
def generate (env : GenEnv) : GenReport × GenTrace :=
  match env.dpInitError with
  | some e =>
    (⟨false, 0, 0, 0, ["Unexpected error: " ++ e], env.output_dir⟩, ⟨false, false, [], 0⟩)
  | Option.none =>
    if !env.validation_errors.isEmpty then
      (⟨false, 0, 0, 0, env.validation_errors, env.output_dir⟩, ⟨false, false, [], 0⟩)
    else
      match env.componentInitError with
      | some e =>
        (⟨false, 0, 0, 0, ["Unexpected error: " ++ e], env.output_dir⟩, ⟨false, false, [], 0⟩)
      | Option.none =>
        if !env.converter_available then
          (⟨false, 0, 0, 0, ["LibreOffice not found or not working"], env.output_dir⟩,
           ⟨false, false, [], 0⟩)
        else
          match env.mkdtempError with
          | some e =>
            (⟨false, 0, 0, 0, ["Unexpected error: " ++ e], env.output_dir⟩, ⟨false, false, [], 0⟩)
          | Option.none =>
            match env.outputMkdirError with
            | some e =>
              (⟨false, 0, 0, 0, ["Unexpected error: " ++ e], env.output_dir⟩, ⟨true, false, [], 0⟩)
            | Option.none =>
              if env.rows.isEmpty then
                (⟨false, 0, 0, 0, ["No student data found in Excel file"], env.output_dir⟩,
                 ⟨true, env.rmtree_ok, [], 0⟩)
              else
                let fp := fillPhase env.rows 1
                if fp.1.isEmpty then
                  (⟨fp.2.1 == 0, env.rows.length, 0, fp.2.1, fp.2.2, env.output_dir⟩,
                   ⟨true, env.rmtree_ok, fp.1, 0⟩)
                else
                  let cb := convert_batch_single_call env.timeout_seconds fp.1
                    env.batch_behavior env.pdfExists
                  (⟨(fp.2.1 + cb.1.failure_count) == 0, env.rows.length, cb.1.success_count,
                     fp.2.1 + cb.1.failure_count, fp.2.2 ++ cb.1.errors, env.output_dir⟩,
                   ⟨true, env.rmtree_ok, fp.1, cb.2⟩)

/-! ## Dictionary lemmas -/

theorem dictLookup_dictInsert_self {α : Type} (d : List (String × α)) (k : String) (v : α) :
    dictLookup (dictInsert d k v) k = some v := by
  induction d with
  | nil => simp [dictInsert, dictLookup]
  | cons kv rest ih =>
    obtain ⟨k0, v0⟩ := kv
    by_cases h : k0 = k
    · simp [dictInsert, h, dictLookup]
    · simp [dictInsert, h, dictLookup, ih]

theorem dictLookup_dictInsert_ne {α : Type} (d : List (String × α)) (k0 k : String) (v : α)
    (h : k0 ≠ k) : dictLookup (dictInsert d k0 v) k = dictLookup d k := by
  induction d with
  | nil => simp [dictInsert, dictLookup, h]
  | cons kv rest ih =>
    obtain ⟨k1, v1⟩ := kv
    by_cases h1 : k1 = k0
    · subst h1
      simp [dictInsert, dictLookup, h]
    · simp [dictInsert, dictLookup, h1, ih]

theorem dictLookup_map_value {α β : Type} (f : α → β) (d : List (String × α)) (k : String) :
    dictLookup (d.map (fun kv => (kv.1, f kv.2))) k = (dictLookup d k).map f := by
  induction d with
  | nil => simp [dictLookup]
  | cons kv rest ih =>
    obtain ⟨k0, v0⟩ := kv
    by_cases h : k0 = k
    · simp [dictLookup, h]
    · simp [dictLookup, h, ih]

theorem dictLookup_of_mem {α : Type} (d : List (String × α)) (k : String) (v : α)
    (hnd : keysNodup d) (hmem : (k, v) ∈ d) : dictLookup d k = some v := by
  induction d with
  | nil => simp at hmem
  | cons kv rest ih =>
    obtain ⟨k0, v0⟩ := kv
    rw [keysNodup, List.map_cons, List.nodup_cons] at hnd
    rcases List.mem_cons.mp hmem with h | h
    · rw [Prod.mk.injEq] at h
      obtain ⟨h1, h2⟩ := h
      subst h1
      subst h2
      simp [dictLookup]
    · have hk : k0 ≠ k := by
        intro he
        apply hnd.1
        rw [he]
        exact List.mem_map.mpr ⟨(k, v), h, rfl⟩
      simp only [dictLookup, hk, if_false]
      exact ih hnd.2 h

theorem mem_of_dictLookup {α : Type} (d : List (String × α)) (k : String) (v : α)
    (h : dictLookup d k = some v) : (k, v) ∈ d := by
  induction d with
  | nil => simp [dictLookup] at h
  | cons kv rest ih =>
    obtain ⟨k0, v0⟩ := kv
    by_cases hk : k0 = k
    · subst hk
      simp [dictLookup] at h
      subst h
      exact List.mem_cons_self _ _
    · simp [dictLookup, hk] at h
      exact List.mem_cons_of_mem _ (ih h)

/-! ## Field-building lemmas -/

theorem buildFields_failure (cmap : List (String × String)) (row : Row) (key ref : String)
    (entries : List (String × String)) (acc : List (String × CellValue))
    (hmem : (key, ref) ∈ entries) (htr : transformEntry cmap row key ref = Option.none) :
    buildFields cmap row entries acc = Option.none := by
  induction entries generalizing acc with
  | nil => simp at hmem
  | cons e rest ih =>
    obtain ⟨k0, r0⟩ := e
    rcases List.mem_cons.mp hmem with h | h
    · rw [Prod.mk.injEq] at h
      obtain ⟨h1, h2⟩ := h
      subst h1
      subst h2
      simp [buildFields, htr]
    · cases htr0 : transformEntry cmap row k0 r0 with
      | none => simp [buildFields, htr0]
      | some o =>
        cases o with
        | none => simpa [buildFields, htr0] using ih _ h
        | some v => simpa [buildFields, htr0] using ih _ h

theorem buildFields_preserve (cmap : List (String × String)) (row : Row) (k : String)
    (entries : List (String × String)) (acc fd : List (String × CellValue))
    (hne : ∀ p ∈ entries, p.1 ≠ k)
    (hbf : buildFields cmap row entries acc = some fd) :
    dictLookup fd k = dictLookup acc k := by
  induction entries generalizing acc with
  | nil =>
    simp [buildFields] at hbf
    subst hbf
    rfl
  | cons e rest ih =>
    obtain ⟨k0, r0⟩ := e
    have hk0 : k0 ≠ k := hne (k0, r0) (List.mem_cons_self _ _)
    have hrest : ∀ p ∈ rest, p.1 ≠ k := fun p hp => hne p (List.mem_cons_of_mem _ hp)
    cases htr0 : transformEntry cmap row k0 r0 with
    | none => simp [buildFields, htr0] at hbf
    | some o =>
      cases o with
      | none =>
        simp only [buildFields, htr0] at hbf
        exact ih _ hrest hbf
      | some v =>
        simp only [buildFields, htr0] at hbf
        rw [ih _ hrest hbf]
        exact dictLookup_dictInsert_ne _ _ _ _ hk0

theorem buildFields_lookup (cmap : List (String × String)) (row : Row) (key ref : String)
    (v : CellValue) (entries : List (String × String)) (acc fd : List (String × CellValue))
    (hnd : keysNodup entries) (hmem : (key, ref) ∈ entries)
    (htr : transformEntry cmap row key ref = some (some v))
    (hbf : buildFields cmap row entries acc = some fd) :
    dictLookup fd key = some v := by
  induction entries generalizing acc with
  | nil => simp at hmem
  | cons e rest ih =>
    obtain ⟨k0, r0⟩ := e
    rw [keysNodup, List.map_cons, List.nodup_cons] at hnd
    rcases List.mem_cons.mp hmem with h | h
    · rw [Prod.mk.injEq] at h
      obtain ⟨h1, h2⟩ := h
      subst h1
      subst h2
      simp only [buildFields, htr] at hbf
      have hrest : ∀ p ∈ rest, p.1 ≠ key := by
        intro p hp he
        exact hnd.1 (he ▸ List.mem_map.mpr ⟨p, hp, rfl⟩)
      rw [buildFields_preserve cmap row key rest _ fd hrest hbf]
      exact dictLookup_dictInsert_self _ _ _
    · cases htr0 : transformEntry cmap row k0 r0 with
      | none => simp [buildFields, htr0] at hbf
      | some o =>
        cases o with
        | none =>
          simp only [buildFields, htr0] at hbf
          exact ih _ hnd.2 h hbf
        | some w =>
          simp only [buildFields, htr0] at hbf
          exact ih _ hnd.2 h hbf

/-! ## Record lemmas for process_student_data -/

theorem process_lookup_class (cmap : List (String × String)) (row : Row) (cn : String)
    (rec : List (String × CellValue)) (h : process_student_data cmap row cn = some rec) :
    dictLookup rec "class" = some (normalizeValue (CellValue.str (replaceUnderscores cn))) := by
  unfold process_student_data at h
  cases hbf : buildFields cmap row cmap [] with
  | none => rw [hbf] at h; exact absurd h (by simp)
  | some fd =>
    rw [hbf] at h
    simp only [Option.some.injEq] at h
    subst h
    rw [dictLookup_map_value]
    rw [dictLookup_dictInsert_self]
    rfl

theorem process_lookup_default (cmap : List (String × String)) (row : Row) (cn : String)
    (rec : List (String × CellValue)) (key ref : String) (c : CellValue)
    (hnd : keysNodup cmap) (hmem : (key, ref) ∈ cmap)
    (hp : key ≠ "percentage") (hr : key ≠ "remark") (hc : key ≠ "class")
    (hrow : row ref = some c)
    (h : process_student_data cmap row cn = some rec) :
    dictLookup rec key = some (normalizeValue c) := by
  have htr : transformEntry cmap row key ref = some (some c) := by
    simp [transformEntry, hp, hr, hc, hrow]
  unfold process_student_data at h
  cases hbf : buildFields cmap row cmap [] with
  | none => rw [hbf] at h; exact absurd h (by simp)
  | some fd =>
    rw [hbf] at h
    simp only [Option.some.injEq] at h
    subst h
    rw [dictLookup_map_value]
    rw [dictLookup_dictInsert_ne _ _ _ _ (fun he => hc he.symm)]
    rw [buildFields_lookup cmap row key ref c cmap [] fd hnd hmem htr hbf]
    rfl

theorem data_append_chars (s t : String) : (s ++ t).data = s.data ++ t.data := rfl

theorem percent_mem_foldForNull (s : String) : '%' ∈ (foldForNull (s ++ "%")).data := by
  have hdata : (foldForNull (s ++ "%")).data =
      ((s.data.map Char.toUpper).filter (fun c => !(c == ' '))) ++ ['%'] := by
    show ((s.data ++ ['%']).map Char.toUpper).filter (fun c => !(c == ' ')) = _
    rw [List.map_append, List.filter_append]
    rfl
  rw [hdata]
  exact List.mem_append_right _ (by decide)

theorem not_nullEquiv_percent (s : String) :
    isNullEquiv (CellValue.str (s ++ "%")) = false := by
  have hp := percent_mem_foldForNull s
  rw [isNullEquiv, Bool.eq_false_iff]
  intro hc
  have hm : foldForNull (s ++ "%") ∈ nan_values := by
    simpa using hc
  simp only [nan_values, List.mem_cons, List.not_mem_nil, or_false] at hm
  rcases hm with h | h | h <;> rw [h] at hp <;> revert hp <;> decide

theorem process_lookup_percentage (cmap : List (String × String)) (row : Row) (cn : String)
    (rec : List (String × CellValue)) (ref : String) (cell : CellValue) (f : PyFloat)
    (hnd : keysNodup cmap) (hmem : ("percentage", ref) ∈ cmap)
    (hrow : row ref = some cell) (hf : pyFloat cell = some f)
    (h : process_student_data cmap row cn = some rec) :
    dictLookup rec "percentage" = some (CellValue.str (format2f f ++ "%")) := by
  have hlk : dictLookup cmap "percentage" = some ref := dictLookup_of_mem _ _ _ hnd hmem
  have htr : transformEntry cmap row "percentage" ref =
      some (some (CellValue.str (format2f f ++ "%"))) := by
    simp [transformEntry, hlk, hrow, hf]
  unfold process_student_data at h
  cases hbf : buildFields cmap row cmap [] with
  | none => rw [hbf] at h; exact absurd h (by simp)
  | some fd =>
    rw [hbf] at h
    simp only [Option.some.injEq] at h
    subst h
    rw [dictLookup_map_value]
    rw [dictLookup_dictInsert_ne _ _ _ _ (by decide)]
    rw [buildFields_lookup cmap row "percentage" ref _ cmap [] fd hnd hmem htr hbf]
    simp [normalizeValue, not_nullEquiv_percent]

theorem process_percentage_failure (cmap : List (String × String)) (row : Row) (cn : String)
    (pref : String) (cell : CellValue)
    (hlk : dictLookup cmap "percentage" = some pref)
    (hrow : row pref = some cell) (hf : pyFloat cell = Option.none) :
    process_student_data cmap row cn = Option.none := by
  have hmem : ("percentage", pref) ∈ cmap := mem_of_dictLookup _ _ _ hlk
  have htr : transformEntry cmap row "percentage" pref = Option.none := by
    simp [transformEntry, hlk, hrow, hf]
  unfold process_student_data
  rw [buildFields_failure cmap row "percentage" pref cmap [] hmem htr]

theorem process_values_normalized (cmap : List (String × String)) (row : Row) (cn : String)
    (rec : List (String × CellValue)) (h : process_student_data cmap row cn = some rec) :
    ∀ kv ∈ rec, kv.2 = CellValue.str "---" ∨ isNullEquiv kv.2 = false := by
  unfold process_student_data at h
  cases hbf : buildFields cmap row cmap [] with
  | none => rw [hbf] at h; exact absurd h (by simp)
  | some fd =>
    rw [hbf] at h
    simp only [Option.some.injEq] at h
    subst h
    intro kv hkv
    rcases List.mem_map.mp hkv with ⟨kv0, _, hkv0⟩
    subst hkv0
    by_cases hne : isNullEquiv kv0.2 = true
    · left
      simp [normalizeValue, hne]
    · right
      simp only [normalizeValue, Bool.not_eq_true] at hne
      simp [normalizeValue, hne]

/-! ## Batch conversion lemmas -/

theorem foldl_reconcile (pe : String → Bool) (files : List String) :
    ∀ (s f : Nat) (es : List String),
      files.foldl (reconcileStep pe) ⟨s, f, es⟩ =
        ⟨s + files.countP (fun p => pe (pathStem p)),
         f + files.countP (fun p => !pe (pathStem p)),
         es ++ (files.filter (fun p => !pe (pathStem p))).map
           (fun p => "Failed to convert: " ++ pathName p)⟩ := by
  induction files with
  | nil => intro s f es; simp
  | cons p rest ih =>
    intro s f es
    by_cases hp : pe (pathStem p)
    · rw [List.foldl_cons]
      rw [show reconcileStep pe ⟨s, f, es⟩ p = ⟨s + 1, f, es⟩ by simp [reconcileStep, hp]]
      rw [ih]
      rw [List.countP_cons_of_pos _ _ (by simpa using hp)]
      rw [List.countP_cons_of_neg _ _ (by simpa using hp)]
      rw [List.filter_cons_of_neg (by simpa using hp)]
      simp only [BatchResult.mk.injEq, and_true, true_and]
      omega
    · rw [List.foldl_cons]
      rw [show reconcileStep pe ⟨s, f, es⟩ p =
        ⟨s, f + 1, es ++ ["Failed to convert: " ++ pathName p]⟩ by simp [reconcileStep, hp]]
      rw [ih]
      rw [List.countP_cons_of_neg _ _ (by simpa using hp)]
      rw [List.countP_cons_of_pos _ _ (by simpa using hp)]
      rw [List.filter_cons_of_pos (by simpa using hp)]
      rw [List.map_cons]
      simp only [BatchResult.mk.injEq, List.append_assoc, List.singleton_append,
        and_true, true_and]
      omega

theorem countP_add_countP_not (p : String → Bool) (l : List String) :
    l.countP p + l.countP (fun a => !p a) = l.length := by
  induction l with
  | nil => simp
  | cons a rest ih =>
    by_cases hp : p a
    · rw [List.countP_cons_of_pos _ _ (by simpa using hp),
          List.countP_cons_of_neg _ _ (by simpa using hp), List.length_cons]
      omega
    · rw [List.countP_cons_of_neg _ _ (by simpa using hp),
          List.countP_cons_of_pos _ _ (by simpa using hp), List.length_cons]
      omega

theorem convert_batch_sum (t : Nat) (files : List String) (b : ExtBehavior)
    (pe : String → Bool) (hne : files ≠ []) :
    (convert_batch_single_call t files b pe).1.success_count +
      (convert_batch_single_call t files b pe).1.failure_count = files.length := by
  unfold convert_batch_single_call
  rw [if_neg (by simpa using hne)]
  cases hr : runWithTimeout (t * files.length) b with
  | completed ec =>
    simp only [hr]
    simp only [foldl_reconcile]
    simpa using countP_add_countP_not (fun p => pe (pathStem p)) files
  | timedOut => simp [hr]
  | raised msg => simp [hr]

/-! ## Fill phase lemma -/

theorem fillPhase_length (rows : List StudentRow) :
    ∀ current, (fillPhase rows current).1.length + (fillPhase rows current).2.1 = rows.length := by
  induction rows with
  | nil => intro current; simp [fillPhase]
  | cons row rest ih =>
    intro current
    cases hfe : row.fill_error with
    | none =>
      simp only [fillPhase, hfe, List.length_cons]
      have := ih (current + 1)
      omega
    | some e =>
      simp only [fillPhase, hfe, List.length_cons]
      have := ih (current + 1)
      omega

/-! ## Column letter lemmas -/

theorem letterValue_le (c : Char) (h : validLetterChar c) : letterValue c ≤ 25 := by
  unfold letterValue
  rcases h with ⟨h1, h2⟩ | ⟨h1, h2⟩ <;> split <;> omega

theorem colIndex_single (c : Char) : colIndex [c] = letterValue c := by
  simp [colIndex]

theorem colIndex_pair (c d : Char) :
    colIndex [c, d] = 26 * letterValue c + letterValue d + 26 := by
  simp only [colIndex, List.foldl_cons, List.foldl_nil]
  omega

theorem colIndex_mono (xs ys : List Char)
    (hxne : xs ≠ []) (hyne : ys ≠ [])
    (hxv : ∀ c ∈ xs, validLetterChar c)
    (hx2 : xs.length ≤ 2) (hy2 : ys.length ≤ 2)
    (hlt : xs.length < ys.length ∨ (xs.length = ys.length ∧ lexLtV xs ys = true)) :
    colIndex xs < colIndex ys := by
  match xs, ys with
  | [], _ => exact absurd rfl hxne
  | _, [] => exact absurd rfl hyne
  | [c], [d] =>
    rcases hlt with h | ⟨_, hlex⟩
    · simp at h
    · rw [colIndex_single, colIndex_single]
      simp only [lexLtV] at hlex
      split at hlex
      · assumption
      · split at hlex
        · simp [lexLtV] at hlex
        · simp at hlex
  | [c], [d, d'] =>
    rw [colIndex_single, colIndex_pair]
    have := letterValue_le c (hxv c (by simp))
    omega
  | [c, c'], [d] =>
    rcases hlt with h | ⟨h, _⟩ <;> simp at h
  | [c, c'], [d, d'] =>
    rcases hlt with h | ⟨_, hlex⟩
    · simp at h
    · rw [colIndex_pair, colIndex_pair]
      have hc' := letterValue_le c' (hxv c' (by simp))
      simp only [lexLtV] at hlex
      split at hlex
      · omega
      · split at hlex
        · split at hlex
          · omega
          · split at hlex
            · simp [lexLtV] at hlex
            · simp at hlex
        · simp at hlex
  | _ :: _ :: _ :: _, _ => simp at hx2
  | _, _ :: _ :: _ :: _ => simp at hy2

theorem digitChar_isDigit (m : Nat) (h : m < 10) : (Nat.digitChar m).isDigit = true := by
  interval_cases m <;> decide

/-! ## Claim C1 -/

/-- Claim C1, counterexample: the claim says convertBatch invokes the external
conversion service exactly once for every batch of input document paths, but
for the empty batch the code returns early (pdf_converter.py line 201) and the
service is invoked zero times, not once. -/
theorem c1_counterexample_empty_batch :
    (convert_batch_single_call 60 [] (ExtBehavior.completes 0 0) (fun _ => true)).2 ≠ 1 := by
  decide

/-- Claim C1 (amended): for every non-empty batch whose single batched
invocation returns within the timeout, the external service is invoked exactly
once and, regardless of the process exit code, each input document is counted
as a success exactly when an output with the same stem exists in the output
directory afterwards; each absent output contributes one error entry naming
the document, and successCount plus failureCount equals the batch size.  (The
empty batch performs no invocation and returns zero counts.) -/
theorem c1_convert_batch_reconciliation (t : Nat) (files : List String) (d : Nat) (ec : Int)
    (pe : String → Bool) (hne : files ≠ []) (hd : d ≤ t * files.length) :
    (convert_batch_single_call t files (ExtBehavior.completes d ec) pe).2 = 1 ∧
    (convert_batch_single_call t files (ExtBehavior.completes d ec) pe).1.success_count =
      files.countP (fun p => pe (pathStem p)) ∧
    (convert_batch_single_call t files (ExtBehavior.completes d ec) pe).1.failure_count =
      files.countP (fun p => !pe (pathStem p)) ∧
    (convert_batch_single_call t files (ExtBehavior.completes d ec) pe).1.errors =
      (files.filter (fun p => !pe (pathStem p))).map
        (fun p => "Failed to convert: " ++ pathName p) ∧
    (convert_batch_single_call t files (ExtBehavior.completes d ec) pe).1.success_count +
      (convert_batch_single_call t files (ExtBehavior.completes d ec) pe).1.failure_count =
      files.length := by
  have hrun : runWithTimeout (t * files.length) (ExtBehavior.completes d ec)
      = RunOutcome.completed ec := by
    simp only [runWithTimeout]
    rw [if_pos hd]
  have hcall : convert_batch_single_call t files (ExtBehavior.completes d ec) pe
      = (files.foldl (reconcileStep pe) ⟨0, 0, []⟩, 1) := by
    unfold convert_batch_single_call
    rw [if_neg (by simpa using hne), hrun]
  rw [hcall]
  refine ⟨rfl, ?_, ?_, ?_, ?_⟩
  · simp [foldl_reconcile]
  · simp [foldl_reconcile]
  · simp [foldl_reconcile]
  · simp only [foldl_reconcile]
    simpa using countP_add_countP_not (fun p => pe (pathStem p)) files

/-- Witness for claim C1's theorem at a concrete two-document batch where one
output exists and the other does not. -/
theorem c1_witness :
    (convert_batch_single_call 60 ["a.docx", "b.docx"] (ExtBehavior.completes 30 1)
      (fun s => s == "a")).2 = 1 ∧
    (convert_batch_single_call 60 ["a.docx", "b.docx"] (ExtBehavior.completes 30 1)
      (fun s => s == "a")).1.success_count +
      (convert_batch_single_call 60 ["a.docx", "b.docx"] (ExtBehavior.completes 30 1)
      (fun s => s == "a")).1.failure_count = 2 :=
  ⟨(c1_convert_batch_reconciliation 60 ["a.docx", "b.docx"] 30 1 (fun s => s == "a")
      (by decide) (by decide)).1,
   (c1_convert_batch_reconciliation 60 ["a.docx", "b.docx"] 30 1 (fun s => s == "a")
      (by decide) (by decide)).2.2.2.2⟩

/-! ## Claim C4 -/

/-- Claim C4: the batched conversion call is bounded by the per-call timeout
multiplied by the batch size; when the external process needs longer than that
bound, the call times out and the result reports zero successes, all documents
failed and the single aggregate timeout error, independently of which output
files exist (no reconciliation is performed). -/
theorem c4_batch_timeout_policy (t : Nat) (files : List String) (d : Nat) (ec : Int)
    (pe : String → Bool) (hne : files ≠ []) (hd : t * files.length < d) :
    runWithTimeout (t * files.length) (ExtBehavior.completes d ec) = RunOutcome.timedOut ∧
    (convert_batch_single_call t files (ExtBehavior.completes d ec) pe).1 =
      ⟨0, files.length, ["Batch conversion timed out"]⟩ ∧
    ∀ pe2 : String → Bool,
      (convert_batch_single_call t files (ExtBehavior.completes d ec) pe).1 =
        (convert_batch_single_call t files (ExtBehavior.completes d ec) pe2).1 := by
  have hrun : runWithTimeout (t * files.length) (ExtBehavior.completes d ec)
      = RunOutcome.timedOut := by
    simp only [runWithTimeout]
    rw [if_neg (by omega)]
  have hcall : ∀ pe3 : String → Bool,
      convert_batch_single_call t files (ExtBehavior.completes d ec) pe3
      = (⟨0, files.length, ["Batch conversion timed out"]⟩, 1) := by
    intro pe3
    unfold convert_batch_single_call
    rw [if_neg (by simpa using hne), hrun]
  exact ⟨hrun, by rw [hcall], fun pe2 => by rw [hcall, hcall]⟩

/-- Witness for claim C4's theorem: one document, per-call timeout 1, process
duration 2. -/
theorem c4_witness :
    (convert_batch_single_call 1 ["a.docx"] (ExtBehavior.completes 2 0) (fun _ => true)).1 =
      ⟨0, 1, ["Batch conversion timed out"]⟩ :=
  (c4_batch_timeout_policy 1 ["a.docx"] 2 0 (fun _ => true) (by decide) (by decide)).2.1

/-! ## Claim C2 -/

/-- The row used in the C2 counterexample: column B holds the empty string. -/
def rowEmptyB : Row := fun r => if r = "B" then some (CellValue.str "") else Option.none

/-- Claim C2, counterexample: the claim says a field whose raw source cell is
empty is replaced by the placeholder, and that every record value is
non-empty; but ReportGenV2.py keeps the empty string, since it is not Python
None and folds to "", which is not in the indicator list, so the extracted
record holds an empty value. -/
theorem c2_counterexample_empty_string_kept :
    process_student_data [("name", "B")] rowEmptyB "X" =
      some [("name", CellValue.str ""), ("class", CellValue.str "X")] ∧
    CellValue.str "" ≠ CellValue.str "---" := by
  decide

/-- Claim C2 (amended): in every extracted record, a default-policy field
whose raw cell value is Python None, or whose folded string form (upper-cased,
spaces removed) is one of the indicators NAN, NONE, NA, is replaced by the
placeholder "---", and all other values - including the empty string - are
kept unchanged; the synthesized class field undergoes the same normalization;
hence every record value is either the placeholder or not null-equivalent,
but values are not guaranteed non-empty. -/
theorem c2_null_normalization (cmap : List (String × String)) (row : Row) (cn : String)
    (rec : List (String × CellValue)) (hnd : keysNodup cmap)
    (hproc : process_student_data cmap row cn = some rec) :
    (∀ (key ref : String) (c : CellValue), (key, ref) ∈ cmap →
        key ≠ "percentage" → key ≠ "remark" → key ≠ "class" →
        row ref = some c → dictLookup rec key = some (normalizeValue c)) ∧
    dictLookup rec "class" = some (normalizeValue (CellValue.str (replaceUnderscores cn))) ∧
    (∀ kv ∈ rec, kv.2 = CellValue.str "---" ∨ isNullEquiv kv.2 = false) := by
  refine ⟨?_, ?_, ?_⟩
  · intro key ref c hmem hp hr hc hrow
    exact process_lookup_default cmap row cn rec key ref c hnd hmem hp hr hc hrow hproc
  · exact process_lookup_class cmap row cn rec hproc
  · exact process_values_normalized cmap row cn rec hproc

/-- The mapping, row and record of the C2 witness: a NaN name cell is
normalized to the placeholder. -/
def cmapW : List (String × String) := [("name", "B")]

/-- Row for the C2 witness: column B holds a float NaN (empty Excel cell). -/
def rowNanB : Row := fun r => if r = "B" then some CellValue.nan else Option.none

/-- Record extracted in the C2 witness. -/
def recW : List (String × CellValue) :=
  [("name", CellValue.str "---"), ("class", CellValue.str "X")]

/-- Witness for claim C2's theorem: a NaN cell normalizes to the placeholder. -/
theorem c2_witness :
    keysNodup cmapW ∧ process_student_data cmapW rowNanB "X" = some recW ∧
    dictLookup recW "name" = some (normalizeValue CellValue.nan) :=
  ⟨by decide, by decide,
   (c2_null_normalization cmapW rowNanB "X" recW (by decide) (by decide)).1
     "name" "B" CellValue.nan (by decide) (by decide) (by decide) (by decide) (by decide)⟩

/-! ## Claim C7 -/

/-- Claim C7: when the mapping has a percentage field, the extracted record's
percentage value is the raw numeric cell formatted to exactly two decimal
places with a literal percent suffix (87.5 becomes "87.50%", 90 becomes
"90.00%"), and extraction fails - ReportGenV2.py catches the float() exception
and returns None - when the raw value is not numeric. -/
theorem c7_percentage_formatting :
    (∀ (cmap : List (String × String)) (row : Row) (cn : String)
        (rec : List (String × CellValue)) (ref : String) (m : Int) (e : Nat),
        keysNodup cmap → ("percentage", ref) ∈ cmap →
        row ref = some (CellValue.num m e) →
        process_student_data cmap row cn = some rec →
        dictLookup rec "percentage" = some (CellValue.str (format2f (PyFloat.val m e) ++ "%"))) ∧
    format2f (PyFloat.val 875 1) = "87.50" ∧
    format2f (PyFloat.val 90 0) = "90.00" ∧
    (∀ (m : Int) (e : Nat), ∃ (pre : String) (d1 d2 : Char),
        format2f (PyFloat.val m e) = pre ++ "." ++ String.mk [d1, d2] ∧
        d1.isDigit = true ∧ d2.isDigit = true) ∧
    (∀ (cmap : List (String × String)) (row : Row) (cn : String) (pref : String)
        (cell : CellValue),
        dictLookup cmap "percentage" = some pref → row pref = some cell →
        pyFloat cell = Option.none →
        process_student_data cmap row cn = Option.none) := by
  refine ⟨?_, by decide, by decide, ?_, ?_⟩
  · intro cmap row cn rec ref m e hnd hmem hrow hp
    exact process_lookup_percentage cmap row cn rec ref _ _ hnd hmem hrow rfl hp
  · intro m e
    refine ⟨(if m < 0 then "-" else "") ++
        toString (roundHalfEvenNat (m.natAbs * 100) (10 ^ e) / 100),
      Nat.digitChar (roundHalfEvenNat (m.natAbs * 100) (10 ^ e) % 100 / 10),
      Nat.digitChar (roundHalfEvenNat (m.natAbs * 100) (10 ^ e) % 100 % 10), rfl, ?_, ?_⟩
    · exact digitChar_isDigit _ (by omega)
    · exact digitChar_isDigit _ (by omega)
  · intro cmap row cn pref cell hlk hrow hf
    exact process_percentage_failure cmap row cn pref cell hlk hrow hf

/-- Mapping for the C7 witness. -/
def cmapP : List (String × String) := [("percentage", "A")]

/-- Row for the C7 witness: column A holds the numeric value 87.5. -/
def rowP : Row := fun r => if r = "A" then some (CellValue.num 875 1) else Option.none

/-- Record extracted in the C7 witness. -/
def recP : List (String × CellValue) :=
  [("percentage", CellValue.str "87.50%"), ("class", CellValue.str "X")]

/-- Witness for claim C7's theorem at the numeric cell 87.5. -/
theorem c7_witness :
    process_student_data cmapP rowP "X" = some recP ∧
    dictLookup recP "percentage" = some (CellValue.str (format2f (PyFloat.val 875 1) ++ "%")) :=
  ⟨by decide,
   c7_percentage_formatting.1 cmapP rowP "X" recP "A" 875 1
     (by decide) (by decide) (by decide) (by decide)⟩

/-! ## Claim C8 -/

/-- Claim C8, counterexample: the claim says the class field always equals the
class-name input with underscores replaced by spaces; but the null
normalization runs on the class field too, so the class name "NA" yields the
placeholder "---", not "NA". -/
theorem c8_counterexample_null_class_name :
    process_student_data [] (fun _ => Option.none) "NA" =
      some [("class", CellValue.str "---")] ∧
    replaceUnderscores "NA" = "NA" ∧
    CellValue.str "---" ≠ CellValue.str "NA" := by
  decide

/-- Claim C8 (amended): for every mapping and row, the extracted record's
class field equals the null-normalization of the class-name input with every
underscore replaced by a space - the mapping and the row never contribute to
it, even when the mapping contains a class key; when that replaced string is
null-equivalent (such as "NA"), the field is the placeholder instead. -/
theorem c8_class_field_synthesized (cmap : List (String × String)) (row : Row) (cn : String)
    (rec : List (String × CellValue))
    (hproc : process_student_data cmap row cn = some rec) :
    dictLookup rec "class" = some (normalizeValue (CellValue.str (replaceUnderscores cn))) :=
  process_lookup_class cmap row cn rec hproc

/-- Mapping for the C8 witness: it deliberately contains a class key. -/
def cmapC : List (String × String) := [("class", "Q"), ("name", "B")]

/-- Row for the C8 witness: the cell the class key points at holds a value
that must be ignored. -/
def rowC : Row := fun r =>
  if r = "B" then some (CellValue.str "Rahul")
  else if r = "Q" then some (CellValue.str "IGNORED")
  else Option.none

/-- Record extracted in the C8 witness. -/
def recC : List (String × CellValue) :=
  [("name", CellValue.str "Rahul"), ("class", CellValue.str "Class 5A")]

/-- Witness for claim C8's theorem: the mapping's class entry is ignored and
the class field comes from the class name. -/
theorem c8_witness :
    process_student_data cmapC rowC "Class_5A" = some recC ∧
    dictLookup recC "class" =
      some (normalizeValue (CellValue.str (replaceUnderscores "Class_5A"))) :=
  ⟨by decide, c8_class_field_synthesized cmapC rowC "Class_5A" recC (by decide)⟩

/-! ## Claim C6 -/

/-- A row the legacy generation loop passes over without stopping: extraction
succeeds and the record's name is present and differs from the placeholder. -/
def rowOkForLoop (cmap : List (String × String)) (cn : String) (row : Row)
    (sd : List (String × CellValue)) : Prop :=
  process_student_data cmap row cn = some sd ∧
  dictLookup sd "name" ≠ Option.none ∧
  dictLookup sd "name" ≠ some (CellValue.str "---")

/-- The rows before the sentinel, paired with their extracted records. -/
def processedOk (cmap : List (String × String)) (cn : String) :
    List Row → List (List (String × CellValue)) → Prop
  | [], [] => True
  | r :: rs, sd :: sds => rowOkForLoop cmap cn r sd ∧ processedOk cmap cn rs sds
  | _, _ => False

/-- The environment of the C6 counterexample: three student rows, the second
of which has the placeholder as its extracted name; everything else is
benign. -/
def envC6 : GenEnv := {
  output_dir := "out", timeout_seconds := 60,
  dpInitError := Option.none, validation_errors := [],
  componentInitError := Option.none, converter_available := true,
  mkdtempError := Option.none, outputMkdirError := Option.none,
  rows := [⟨some "Alice", Option.none⟩, ⟨some "---", Option.none⟩, ⟨some "Bob", Option.none⟩],
  batch_behavior := ExtBehavior.completes 0 0,
  pdfExists := fun _ => true, rmtree_ok := true }

/-- Claim C6, counterexample: the claim says the orchestrator stops at a row
whose extracted name equals the placeholder, citing also the portable
orchestrator (report_generator.py lines 122-144); but that loop has no
sentinel check: the placeholder-named row and the row after it are filled and
converted like any other, so all three rows produce documents. -/
theorem c6_counterexample_portable_no_sentinel :
    (generate envC6).2.docxFilled = ["Alice.docx", "---.docx", "Bob.docx"] ∧
    (generate envC6).1.total_students = 3 ∧
    (generate envC6).1.generated = 3 := by
  decide

/-- Claim C6 (amended): the legacy orchestrator's document-generation loop
(ReportGenV2.py lines 139-150) stops at the first row whose extracted name
equals the placeholder: all earlier rows produce documents in order, the
sentinel row and all later rows produce none, and no error is raised; the
portable orchestrator has no such sentinel and processes placeholder-named
rows like any other (see the counterexample). -/
theorem c6_legacy_sentinel_stops_loop (cmap : List (String × String)) (cn : String)
    (rows1 : List Row) (sds : List (List (String × CellValue))) (rowS : Row)
    (sdS : List (String × CellValue)) (rows2 : List Row)
    (hok : processedOk cmap cn rows1 sds)
    (hS : process_student_data cmap rowS cn = some sdS)
    (hname : dictLookup sdS "name" = some (CellValue.str "---")) :
    generate_word_documents cmap cn (rows1 ++ rowS :: rows2) = Except.ok sds := by
  induction rows1 generalizing sds with
  | nil =>
    cases sds with
    | nil =>
      simp [generate_word_documents, hS, hname]
    | cons sd sds2 => simp [processedOk] at hok
  | cons r rs ih =>
    cases sds with
    | nil => simp [processedOk] at hok
    | cons sd sds2 =>
      simp only [processedOk] at hok
      obtain ⟨⟨hpr, hn1, hn2⟩, hrest⟩ := hok
      obtain ⟨v, hlk⟩ := Option.ne_none_iff_exists'.mp hn1
      have hv : v ≠ CellValue.str "---" := by
        intro he
        rw [he] at hlk
        exact hn2 hlk
      simp only [List.cons_append, generate_word_documents, hpr, hlk]
      rw [if_neg hv]
      have ih2 : generate_word_documents cmap cn (rs.append (rowS :: rows2)) =
          Except.ok sds2 := ih sds2 hrest
      rw [ih2]

/-- Mapping for the C6 witness. -/
def cmapL : List (String × String) := [("name", "B")]

/-- Row for the C6 witness: a student named Rahul. -/
def rowRahul : Row := fun r => if r = "B" then some (CellValue.str "Rahul") else Option.none

/-- Sentinel row for the C6 witness: a NaN name cell, extracted as the
placeholder. -/
def rowBlankB : Row := fun r => if r = "B" then some CellValue.nan else Option.none

/-- Record extracted for Rahul in the C6 witness. -/
def sdRahul : List (String × CellValue) :=
  [("name", CellValue.str "Rahul"), ("class", CellValue.str "X")]

/-- Witness for claim C6's theorem: one good row, then the blank sentinel,
then another row; only the first document is generated and no error is
raised. -/
theorem c6_witness :
    generate_word_documents cmapL "X" [rowRahul, rowBlankB, rowRahul] = Except.ok [sdRahul] :=
  c6_legacy_sentinel_stops_loop cmapL "X" [rowRahul] [sdRahul] rowBlankB
    [("name", CellValue.str "---"), ("class", CellValue.str "X")] [rowRahul]
    ⟨⟨by decide, by decide, by decide⟩, trivial⟩ (by decide) (by decide)

/-! ## Claim C3 -/

/-- The environment of the C3 counterexample: validation fails, so the run
aborts before any per-student work. -/
def envC3 : GenEnv := {
  output_dir := "out", timeout_seconds := 60,
  dpInitError := Option.none, validation_errors := ["Mapping file is empty"],
  componentInitError := Option.none, converter_available := true,
  mkdtempError := Option.none, outputMkdirError := Option.none,
  rows := [⟨some "Rahul", Option.none⟩],
  batch_behavior := ExtBehavior.completes 0 0,
  pdfExists := fun _ => true, rmtree_ok := true }

/-- Claim C3, counterexample: the claim says success is true exactly when the
total failure count is zero, for every run; but a run aborted by validation
returns success false with a failure count of zero (no template-filling or
conversion failures occurred), so the equivalence fails. -/
theorem c3_counterexample_validation_abort :
    (generate envC3).1.success = false ∧ (generate envC3).1.failed = 0 := by
  decide

/-- Claim C3 (amended): for every run in which no run-aborting condition
occurs - initialization succeeds, validation passes, the converter is
available, directory creation succeeds and at least one student row is loaded
- the report's success flag is true exactly when the merged failure count of
the filling and conversion phases is zero; aborted runs return success false
with a failure count of zero. -/
theorem c3_success_iff_no_failures (env : GenEnv)
    (h1 : env.dpInitError = Option.none) (h2 : env.validation_errors = [])
    (h3 : env.componentInitError = Option.none) (h4 : env.converter_available = true)
    (h5 : env.mkdtempError = Option.none) (h6 : env.outputMkdirError = Option.none)
    (h7 : env.rows ≠ []) :
    (generate env).1.success = true ↔ (generate env).1.failed = 0 := by
  have h7e : env.rows.isEmpty = false := by
    cases hr : env.rows with
    | nil => exact absurd hr h7
    | cons a l => simp
  by_cases hfp : (fillPhase env.rows 1).1.isEmpty
  · simp [generate, h1, h2, h3, h4, h5, h6, h7e, hfp]
  · simp [generate, h1, h2, h3, h4, h5, h6, h7e, hfp]

/-- A benign environment: one student, successful filling, an output that
exists after conversion. -/
def envOk : GenEnv := {
  output_dir := "out", timeout_seconds := 60,
  dpInitError := Option.none, validation_errors := [],
  componentInitError := Option.none, converter_available := true,
  mkdtempError := Option.none, outputMkdirError := Option.none,
  rows := [⟨some "Rahul", Option.none⟩],
  batch_behavior := ExtBehavior.completes 0 0,
  pdfExists := fun _ => true, rmtree_ok := true }

/-- Witness for claim C3's theorem at the benign environment. -/
theorem c3_witness :
    (generate envOk).1.success = true ↔ (generate envOk).1.failed = 0 :=
  c3_success_iff_no_failures envOk rfl rfl rfl rfl rfl rfl (by decide)

/-! ## Claim C5 -/

/-- The environment of the C5 run: everything is fine up to the point where
`output_path.mkdir` raises - after the temporary directory was created at
report_generator.py line 107 but before the try/finally block at line 111. -/
def envC5 : GenEnv := {
  output_dir := "out", timeout_seconds := 60,
  dpInitError := Option.none, validation_errors := [],
  componentInitError := Option.none, converter_available := true,
  mkdtempError := Option.none, outputMkdirError := some "Permission denied",
  rows := [⟨some "Rahul", Option.none⟩],
  batch_behavior := ExtBehavior.completes 0 0,
  pdfExists := fun _ => true, rmtree_ok := true }

/-- Claim C5: the claim says the temporary directory is deleted on every exit
path; but `output_path.mkdir(parents=True, exist_ok=True)` sits between
`tempfile.mkdtemp` and the try/finally block, so when it raises the exception
goes straight to the outer handler and `shutil.rmtree` never runs: the
directory was created and is not removed by return time. -/
theorem c5_mkdir_failure_leaks_temp_dir :
    (generate envC5).2.tempDirCreated = true ∧
    (generate envC5).2.tempDirRemoved = false := by
  decide

/-! ## Claim C10 -/

/-- Claim C10: for every run in which initialization, validation, the
availability check and directory creation succeed and at least one student row
is loaded, the report satisfies generated + failed = total_students - every
student is counted exactly once, whatever the batch conversion behaviour
(completion with any exit code and any set of produced files, timeout, or
another exception). -/
theorem c10_generated_plus_failed_eq_total (env : GenEnv)
    (h1 : env.dpInitError = Option.none) (h2 : env.validation_errors = [])
    (h3 : env.componentInitError = Option.none) (h4 : env.converter_available = true)
    (h5 : env.mkdtempError = Option.none) (h6 : env.outputMkdirError = Option.none)
    (h7 : env.rows ≠ []) :
    (generate env).1.generated + (generate env).1.failed = (generate env).1.total_students := by
  have h7e : env.rows.isEmpty = false := by
    cases hr : env.rows with
    | nil => exact absurd hr h7
    | cons a l => simp
  have hfl := fillPhase_length env.rows 1
  by_cases hfp : (fillPhase env.rows 1).1.isEmpty
  · have hnil : (fillPhase env.rows 1).1 = [] := List.isEmpty_iff.mp hfp
    rw [hnil] at hfl
    simp only [List.length_nil, Nat.zero_add] at hfl
    simp [generate, h1, h2, h3, h4, h5, h6, h7e, hfp, hfl]
  · have hne : (fillPhase env.rows 1).1 ≠ [] := by
      intro h
      rw [h] at hfp
      exact hfp rfl
    have hsum := convert_batch_sum env.timeout_seconds (fillPhase env.rows 1).1
      env.batch_behavior env.pdfExists hne
    simp [generate, h1, h2, h3, h4, h5, h6, h7e, hfp]
    omega

/-- Witness for claim C10's theorem at the benign environment. -/
theorem c10_witness :
    (generate envOk).1.generated + (generate envOk).1.failed =
      (generate envOk).1.total_students :=
  c10_generated_plus_failed_eq_total envOk rfl rfl rfl rfl rfl rfl (by decide)

/-! ## Claim C9 -/

/-- Claim C9: column-letter resolution is case-insensitive base-26 with no
zero digit: the anchor values of the tests hold, lower case resolves like
upper case, and for all valid letter references of length at most two,
resolution is strictly increasing in the conventional spreadsheet ordering
(shorter first, then alphabetical, case-insensitively). -/
theorem c9_column_letter_resolution :
    column_letter_to_index "A" = 0 ∧ column_letter_to_index "B" = 1 ∧
    column_letter_to_index "Z" = 25 ∧ column_letter_to_index "AA" = 26 ∧
    column_letter_to_index "AB" = 27 ∧ column_letter_to_index "AZ" = 51 ∧
    column_letter_to_index "a" = 0 ∧
    column_letter_to_index "aa" = column_letter_to_index "AA" ∧
    ∀ a b : String, validColLetters a → validColLetters b →
      a.length ≤ 2 → b.length ≤ 2 → spreadsheetLt a b = true →
      column_letter_to_index a < column_letter_to_index b := by
  refine ⟨by decide, by decide, by decide, by decide, by decide, by decide, by decide,
    by decide, ?_⟩
  intro a b ha hb ha2 hb2 hlt
  obtain ⟨hane, hav⟩ := ha
  obtain ⟨hbne, _⟩ := hb
  unfold spreadsheetLt at hlt
  by_cases h1 : a.length < b.length
  · exact colIndex_mono a.data b.data hane hbne hav ha2 hb2 (Or.inl h1)
  · rw [if_neg h1] at hlt
    by_cases h2 : a.length = b.length
    · rw [if_pos h2] at hlt
      exact colIndex_mono a.data b.data hane hbne hav ha2 hb2 (Or.inr ⟨h2, hlt⟩)
    · rw [if_neg h2] at hlt
      simp at hlt

/-- Witness for claim C9's monotonicity component: "Z" sorts before "AA" and
resolves lower. -/
theorem c9_witness : column_letter_to_index "Z" < column_letter_to_index "AA" :=
  c9_column_letter_resolution.2.2.2.2.2.2.2.2 "Z" "AA"
    (by decide) (by decide) (by decide) (by decide) (by decide)
